import Mathlib

/-!
# Verification of the DFSM (DataFrame Schema Manager) core

Shallow embedding of the DFSM frontend's core logic:

* `src/domain/errors.ts`   — normalized API error taxonomy,
* `src/domain/column.ts`   — column domain types and value-source validation,
* `src/modules/tagSearch/service.ts` — debounced, cancelable, cached tag search,
* `src/modules/tagSearch/store.ts`   — keyboard-navigable selection state,
* `src/piwebapi/columns.ts`, `dataframes.ts`, `userelements.ts` — entity
  mappers built on the PI Web API batch protocol.

Asynchronous code is embedded as explicit state passing over a service-state
record, with one step function per event-loop suspension point (a `search`
call body, the debounce timer firing, the backend request completing,
`cancel`). Machine numbers are `Nat`/`Int`; JS string falsiness is made
explicit (`none` or `""`).
-/

namespace DFSM

/-! ## Error taxonomy (`src/domain/errors.ts`) -/

inductive ApiErrorKind where
  | Auth | NotFound | Validation | Conflict | RateLimit | Network | Server | Unknown
deriving DecidableEq, Repr

structure ApiError where
  kind : ApiErrorKind
  message : String
  retryable : Bool
  status : Option Nat
deriving DecidableEq, Repr

/-- `createApiError` from `src/domain/errors.ts`: `retryable` is computed from
the kind; all other fields are stored as given. -/
def createApiError (kind : ApiErrorKind) (message : String) (status : Option Nat) : ApiError :=
  let retryable := kind == .Network || kind == .RateLimit || kind == .Server
  { kind := kind, message := message, retryable := retryable, status := status }

/-- `mapHttpStatusToErrorKind` from `src/domain/errors.ts`. -/
def mapHttpStatusToErrorKind (status : Nat) : ApiErrorKind :=
  if status = 401 || status = 403 then .Auth
  else if status = 404 then .NotFound
  else if status = 400 || status = 422 then .Validation
  else if status = 409 then .Conflict
  else if status = 429 then .RateLimit
  else if status ≥ 500 then .Server
  else .Unknown

/-! ## Column domain (`src/domain/column.ts`) -/

inductive ValueSourceType where
  | PiTag | FixedValue | Formula
deriving DecidableEq, Repr

/-- Render a `ValueSourceType` the way TS string literals do. -/
def ValueSourceType.asString : ValueSourceType → String
  | .PiTag => "PiTag"
  | .FixedValue => "FixedValue"
  | .Formula => "Formula"

structure ValidationResult where
  valid : Bool
  error : Option String
deriving DecidableEq, Repr

/-- JS `String.prototype.trim()`: drop whitespace from both ends, modelled on
the character list so that it evaluates structurally. -/
def trimChars (l : List Char) : List Char :=
  ((l.dropWhile Char.isWhitespace).reverse.dropWhile Char.isWhitespace).reverse

/-- JS `s.trim()` on a Lean `String`. -/
def strTrim (s : String) : String := ⟨trimChars s.data⟩

/-- JS falsiness of an optional string: `undefined` and `""` are falsy. -/
def optFalsy : Option String → Bool
  | none => true
  | some s => s == ""

/-- `value.trim().length === 0` guarded by short-circuit (never reached when
the value is `undefined`). -/
def optTrimEmpty : Option String → Bool
  | none => false
  | some s => (strTrim s).length == 0

/-- `validateValueSource` from `src/domain/column.ts`, with `undefined`
embedded as `none`. -/
def validateValueSource (type : ValueSourceType) (value : Option String) : ValidationResult :=
  if type == .PiTag && (optFalsy value || optTrimEmpty value) then
    { valid := false, error := some "Tag reference is required for PI Tag source" }
  else if type == .FixedValue && value == none then
    { valid := false, error := some "Value is required for Fixed Value source" }
  else if type == .Formula && (optFalsy value || optTrimEmpty value) then
    { valid := false, error := some "Expression is required for Formula source" }
  else
    { valid := true, error := none }

/-! ## Tag domain (`src/domain/tag.ts`) -/

structure Tag where
  id : String
  name : String
  path : String
  description : Option String
  valueType : String
  engineeringUnit : Option String
deriving DecidableEq, Repr

structure TagSearchResult where
  tags : List Tag
  hasMore : Bool
  totalCount : Option Nat
deriving DecidableEq, Repr

structure TagSearchConfig where
  minChars : Nat
  debounceMs : Nat
  limit : Nat
  enableCache : Bool
deriving DecidableEq, Repr

def defaultTagSearchConfig : TagSearchConfig :=
  { minChars := 2, debounceMs := 120, limit := 50, enableCache := true }

/-! ## Tag Search store selection (`src/modules/tagSearch/store.ts`)

Only the fields the selection actions read and write are carried; indices are
`Int` because JS arithmetic may take them below zero before clamping. -/

structure TagSearchStoreState where
  results : List Tag
  selectedIndex : Int
deriving DecidableEq, Repr

/-- `moveSelection(delta)` from `src/modules/tagSearch/store.ts`. -/
def moveSelection (delta : Int) (st : TagSearchStoreState) : TagSearchStoreState :=
  if st.results.length = 0 then st
  else
    let newIndex := st.selectedIndex + delta
    let wrapped :=
      if newIndex < 0 then (st.results.length : Int) - 1
      else if newIndex ≥ (st.results.length : Int) then 0
      else newIndex
    { st with selectedIndex := wrapped }

/-- `selectUp()` from the store: move the selection up by one. -/
def selectUp (st : TagSearchStoreState) : TagSearchStoreState :=
  moveSelection (-1) st

/-- `selectDown()` from the store: move the selection down by one. -/
def selectDown (st : TagSearchStoreState) : TagSearchStoreState :=
  moveSelection 1 st

/-- `setSelectedIndex(index)` from the store: no-op outside bounds. -/
def setSelectedIndex (index : Int) (st : TagSearchStoreState) : TagSearchStoreState :=
  if 0 ≤ index ∧ index < (st.results.length : Int) then
    { st with selectedIndex := index }
  else st

/-! ## Tag Search service (`src/modules/tagSearch/service.ts`)

The service owns a debounce timer, an abort controller, a result cache and a
`pendingResolve` slot. It is embedded as explicit state passing with one step
function per event-loop suspension point: the synchronous body of a `search`
call, the debounce timer firing (which sends the backend request), the
backend request completing, and `cancel`. Promises are identified by the
sequence number of the `search` call that created them; `resolutions` logs
the value each settled promise resolved with. -/

def CACHE_TTL : Nat := 60000

def emptyTagSearchResult : TagSearchResult :=
  { tags := [], hasMore := false, totalCount := none }

/-- JS `s.toLowerCase()`, modelled characterwise. -/
def strLower (s : String) : String := ⟨s.data.map Char.toLower⟩

structure CacheEntry where
  result : TagSearchResult
  timestamp : Nat
deriving DecidableEq, Repr

structure TagSearchServiceState where
  /-- Debounce timer armed and `pendingResolve` set: the (call id, query) of
  the search waiting for its timer. -/
  pending : Option (Nat × String)
  /-- A backend request in flight (timer already fired): (call id, query). -/
  inFlight : Option (Nat × String)
  /-- The in-memory cache, keyed by lowercased query; newest entry first
  (`Map.set` overwrite is modelled by cons plus first-match lookup). -/
  cache : List (String × CacheEntry)
  /-- Fresh ids for the promises returned by `search`. -/
  nextId : Nat
  /-- `Date.now()`. -/
  now : Nat
  /-- Queries passed to `apiSearchTags`, oldest first. -/
  backendCalls : List String
  /-- Call id ↦ the value its promise resolved with, in resolution order. -/
  resolutions : List (Nat × TagSearchResult)
deriving DecidableEq, Repr

def initialServiceState (t0 : Nat) : TagSearchServiceState :=
  { pending := none, inFlight := none, cache := [], nextId := 0, now := t0,
    backendCalls := [], resolutions := [] }

/-- `cancel()` from the service: clear the debounce timer and resolve its
pending promise with the empty result, then abort any in-flight request
(whose catch handler also resolves the promise with the empty result). -/
def serviceCancel (s : TagSearchServiceState) : TagSearchServiceState :=
  let s1 :=
    match s.pending with
    | some (id, _) =>
        { s with pending := none,
                 resolutions := s.resolutions ++ [(id, emptyTagSearchResult)] }
    | none => s
  match s1.inFlight with
  | some (id, _) =>
      { s1 with inFlight := none,
                resolutions := s1.resolutions ++ [(id, emptyTagSearchResult)] }
  | none => s1

/-- `getCachedResult(query)` from the service. -/
def getCachedResult (cfg : TagSearchConfig) (s : TagSearchServiceState)
    (query : String) : Option TagSearchResult :=
  if !cfg.enableCache then none
  else
    match s.cache.lookup (strLower query) with
    | some cached =>
        if s.now - cached.timestamp < CACHE_TTL then some cached.result else none
    | none => none

/-- `setCachedResult(query, result)` from the service. -/
def setCachedResult (cfg : TagSearchConfig) (s : TagSearchServiceState)
    (query : String) (result : TagSearchResult) : TagSearchServiceState :=
  if !cfg.enableCache then s
  else { s with cache := (strLower query, ⟨result, s.now⟩) :: s.cache }

/-- Outcome of the synchronous body of a `search(query)` call: either the
returned promise is already resolved, or it waits on the debounce timer. -/
inductive SearchOutcome where
  | immediate (result : TagSearchResult)
  | scheduled (id : Nat)
deriving DecidableEq, Repr

/-- The synchronous body of `search(query)`: cancel any pending search, short
circuit below `minChars`, serve a fresh cache hit, else arm the debounce
timer for a new promise. -/
def searchCall (cfg : TagSearchConfig) (query : String)
    (s : TagSearchServiceState) : SearchOutcome × TagSearchServiceState :=
  let s := serviceCancel s
  if query = "" ∨ query.length < cfg.minChars then
    (.immediate emptyTagSearchResult, s)
  else
    match getCachedResult cfg s query with
    | some cached => (.immediate cached, s)
    | none =>
        (.scheduled s.nextId,
         { s with pending := some (s.nextId, query), nextId := s.nextId + 1 })

/-- The debounce timer firing: clear `pendingResolve`, create the abort
controller and send the backend request. -/
def fireDebounceTimer (s : TagSearchServiceState) : TagSearchServiceState :=
  match s.pending with
  | none => s
  | some (id, query) =>
      { s with pending := none, inFlight := some (id, query),
               backendCalls := s.backendCalls ++ [query] }

/-- The backend request completing successfully: cache the result under the
lowercased query and resolve the promise with it. -/
def completeBackendRequest (cfg : TagSearchConfig)
    (backend : String → TagSearchResult) (s : TagSearchServiceState) :
    TagSearchServiceState :=
  match s.inFlight with
  | none => s
  | some (id, query) =>
      let result := backend query
      let s1 := setCachedResult cfg { s with inFlight := none } query result
      { s1 with resolutions := s1.resolutions ++ [(id, result)] }

/-- Wall-clock time advancing by `dt` milliseconds. -/
def tickClock (dt : Nat) (s : TagSearchServiceState) : TagSearchServiceState :=
  { s with now := s.now + dt }

/-! ## Batch protocol read-back (`src/piwebapi/dataframes.ts`,
`src/piwebapi/userelements.ts`)

A composite create submits one batch request and then inspects the response
map, keyed by step id. Only the step statuses and raw content bodies matter
for the read-back logic, so a step response is `{Status, Content}` with the
content kept as its raw string body. -/

structure BatchStepResponse where
  Status : Nat
  Content : String
deriving DecidableEq, Repr

/-- `JSON.stringify` of one step response (string escaping elided: contents
are embedded verbatim). -/
def stringifyStep (r : BatchStepResponse) : String :=
  "\x7b\"Status\":" ++ toString r.Status ++ ",\"Content\":\"" ++ r.Content ++ "\"\x7d"

/-- `JSON.stringify(batchResponse)` over the ordered step map. -/
def stringifyBatchResponse (resp : List (String × BatchStepResponse)) : String :=
  "\x7b" ++ String.intercalate ","
    (resp.map (fun p => "\"" ++ p.1 ++ "\":" ++ stringifyStep p.2)) ++ "\x7d"

/-- The tail of `createDataFrame` in `src/piwebapi/dataframes.ts`: fetch the
terminal GET step (`finalRequestId`) from the batch response; absence or any
status other than 200 raises the composite error embedding the serialized
response map, else the created element content is returned. -/
def dataFrameBatchReadBack (inputName : String) (finalRequestId : String)
    (batchResponse : List (String × BatchStepResponse)) :
    Except String BatchStepResponse :=
  match batchResponse.lookup finalRequestId with
  | none =>
      .error ("Failed to create DataFrame: " ++ inputName ++ ". Batch response: "
        ++ stringifyBatchResponse batchResponse)
  | some r =>
      if r.Status ≠ 200 then
        .error ("Failed to create DataFrame: " ++ inputName ++ ". Batch response: "
          ++ stringifyBatchResponse batchResponse)
      else .ok r

/-- The tail of `createUserElement` in `src/piwebapi/userelements.ts`: the
terminal GET read-back is always step "4". -/
def userElementBatchReadBack (normalizedName : String)
    (batchResponse : List (String × BatchStepResponse)) :
    Except String BatchStepResponse :=
  match batchResponse.lookup "4" with
  | none =>
      .error ("Failed to create user element: " ++ normalizedName
        ++ ". Batch response: " ++ stringifyBatchResponse batchResponse)
  | some r =>
      if r.Status ≠ 200 then
        .error ("Failed to create user element: " ++ normalizedName
          ++ ". Batch response: " ++ stringifyBatchResponse batchResponse)
      else .ok r

/-! ## User elements (`src/piwebapi/userelements.ts`, `src/domain/naming.ts`)

The backend is modelled as the list of the AF root's child elements, in
creation order, plus a fresh-WebId supply and a count of creation batches
run. Requests are assumed to succeed (the claims are about the happy path);
`nameFilter` is the backend's case-insensitive name filter, and the code
re-filters its items for an exact case-insensitive match. -/

/-- JS `s.toUpperCase()`, modelled characterwise. -/
def strUpper (s : String) : String := ⟨s.data.map Char.toUpper⟩

/-- The `config.af.naming` block consumed by `normalizeUsername` and
`sanitizeAfName`. -/
structure NamingConfig where
  replaceBackslashWith : String
  uppercase : Bool
  collapseWhitespace : Bool
  maxNameLength : Nat
deriving DecidableEq, Repr

/-- JS `.replace(/\\/g, repl)`: every backslash becomes `repl`. -/
def replaceBackslashes (repl : String) : List Char → List Char
  | [] => []
  | c :: rest =>
      if c = '\\' then repl.data ++ replaceBackslashes repl rest
      else c :: replaceBackslashes repl rest

/-- JS `.replace(/\s+/g, '_')`: each maximal whitespace run becomes one
underscore. The flag tracks whether the previous character was whitespace. -/
def collapseWsGo : Bool → List Char → List Char
  | _, [] => []
  | prevWs, c :: rest =>
      if c.isWhitespace then
        if prevWs then collapseWsGo true rest
        else '_' :: collapseWsGo true rest
      else c :: collapseWsGo false rest

/-- The invalid AF name characters `* ? ; { } [ ] | \\ backtick ' "`
(the latter four written by code point). -/
def afInvalidChars : List Char :=
  ['*', '?', ';', Char.ofNat 123, Char.ofNat 125, '[', ']', '|', '\\',
   Char.ofNat 96, Char.ofNat 39, '"']

/-- JS `.replace(/_+$/, '')`: drop the trailing underscore run. -/
def dropTrailingUnderscores (l : List Char) : List Char :=
  (l.reverse.dropWhile (· = '_')).reverse

/-- `sanitizeAfName` from `src/domain/naming.ts`. -/
def sanitizeAfName (cfg : NamingConfig) (name : String) : String :=
  let sanitized := name.data
  let sanitized := if cfg.collapseWhitespace then collapseWsGo false sanitized else sanitized
  let sanitized := sanitized.filter (fun c => !afInvalidChars.contains c)
  let sanitized := if sanitized.length > cfg.maxNameLength then
      sanitized.take cfg.maxNameLength else sanitized
  ⟨dropTrailingUnderscores sanitized⟩

/-- `normalizeUsername` from `src/domain/naming.ts`. -/
def normalizeUsername (cfg : NamingConfig) (username : String) : String :=
  let normalized := username
  let normalized := if cfg.replaceBackslashWith ≠ "" then
      (⟨replaceBackslashes cfg.replaceBackslashWith normalized.data⟩ : String)
    else normalized
  let normalized := if cfg.uppercase then strUpper normalized else normalized
  sanitizeAfName cfg normalized

structure PiElement where
  WebId : String
  Name : String
deriving DecidableEq, Repr

structure AfRootState where
  /-- Child elements of the AF root, in creation order. -/
  children : List PiElement
  /-- Fresh-WebId supply (WebIds are backend-assigned and opaque). -/
  nextId : Nat
  /-- Number of creation batches that have been run. -/
  batchesRun : Nat
deriving DecidableEq, Repr

/-- `findUserElement` from `src/piwebapi/userelements.ts`: the `nameFilter`
request returns the case-insensitive name matches, and the code picks the
first exact (case-insensitive) match among them. -/
def findUserElement (st : AfRootState) (normalizedName : String) : Option PiElement :=
  let items := st.children.filter
    (fun el => strUpper el.Name == strUpper normalizedName)
  items.find? (fun el => strUpper el.Name == strUpper normalizedName)

/-- `createUserElement` from `src/piwebapi/userelements.ts`, happy path: the
four-step batch creates the element named `normalizedName` under the root
and the terminal GET returns it with Status 200. -/
def createUserElement (st : AfRootState) (normalizedName : String) :
    String × AfRootState :=
  let webId := "WEBID-" ++ toString st.nextId
  (webId,
   { children := st.children ++ [⟨webId, normalizedName⟩],
     nextId := st.nextId + 1,
     batchesRun := st.batchesRun + 1 })

/-- `getOrCreateUserElement` from `src/piwebapi/userelements.ts`. -/
def getOrCreateUserElement (cfg : NamingConfig) (st : AfRootState)
    (userName : String) : String × AfRootState :=
  let normalizedName := normalizeUsername cfg userName
  match findUserElement st normalizedName with
  | some el => (el.WebId, st)
  | none => createUserElement st normalizedName

/-! ## Columns (`src/piwebapi/columns.ts`)

The backend state behind one DataFrame element is its attribute list, in
creation order. An attribute carries the fields the column mapper reads and
writes; the JSON round-trip through the stored `DSM__CONFIG` string is
modelled as the identity on the structured metadata. -/

def DSM_PREFIX : String := "DSM__"

structure CreateColumnInput where
  name : String
  valueSourceType : ValueSourceType
  valueSource : Option String
  metadata : Option (List (String × String))
deriving DecidableEq, Repr

structure PiWebApiAttribute where
  WebId : String
  Name : String
  Description : String
  Type' : String
  ConfigString : String
  /-- The parsed value of the `DSM__CONFIG` child attribute, when present. -/
  configChild : Option (List (String × String))
deriving DecidableEq, Repr

structure Column where
  id : String
  name : String
  /-- The unchecked TS cast `typeMatch[1] as Column['valueSourceType']` keeps
  whatever word was parsed, so the field is a plain string here. -/
  valueSourceType : String
  valueSource : Option String
  valueType : String
  metadata : List (String × String)
  order : Nat
deriving DecidableEq, Repr

/-- A `\w` word character. -/
def isWordChar (c : Char) : Bool := c.isAlphanum || c = '_'

/-- The regex `^\[(\w+)\]` applied to a description: a leading `[`, one or
more word characters, then `]` (maximal munch is equivalent because `]` is
not a word character). -/
def parseTypeTag (desc : String) : Option String :=
  match desc.data with
  | '[' :: rest =>
      let word := rest.takeWhile isWordChar
      match rest.dropWhile isWordChar with
      | ']' :: _ => if word.isEmpty then none else some ⟨word⟩
      | _ => none
  | _ => none

/-- Whether `/\]\s+(.+)$/` matches at a `]` followed by `rest`: at least one
whitespace character and at least two characters in total (newlines, which
`.` would reject, do not occur in descriptions built by this code). -/
def sourceMatchOk : List Char → Bool
  | c :: _ :: _ => c.isWhitespace
  | _ => false

/-- The regex `/\]\s+(.+)$/` followed by `.trim()` on the capture: scan for
the first `]` where the match succeeds; the trimmed capture then equals the
trimmed remainder after that `]`. -/
def findSourceMatch : List Char → Option String
  | [] => none
  | ']' :: rest =>
      if sourceMatchOk rest then some (strTrim ⟨rest⟩)
      else findSourceMatch rest
  | _ :: rest => findSourceMatch rest

/-- `fetchColumnDetails` from `src/piwebapi/columns.ts`: recover metadata
from the `DSM__CONFIG` child (defaulting to empty), and parse
`[Type] Source` out of the description. -/
def fetchColumnDetails (attr : PiWebApiAttribute) (order : Nat) : Column :=
  let metadata := match attr.configChild with
    | some m => m
    | none => []
  let valueSourceType := match parseTypeTag attr.Description with
    | some t => t
    | none => "PiTag"
  let valueSource := findSourceMatch attr.Description.data
  { id := attr.WebId, name := attr.Name, valueSourceType := valueSourceType,
    valueSource := valueSource, valueType := attr.Type', metadata := metadata,
    order := order }

/-- `Array.prototype.join(sep)`. -/
def joinParts (sep : String) : List String → String
  | [] => ""
  | [p] => p
  | p :: rest => p ++ sep ++ joinParts sep rest

/-- `buildColumnDescription` from `src/piwebapi/columns.ts`. -/
def buildColumnDescription (input : CreateColumnInput) : String :=
  let parts := ["[" ++ input.valueSourceType.asString ++ "]"]
  let parts := match input.valueSource with
    | some s => if s ≠ "" then parts ++ [s] else parts
    | none => parts
  joinParts " " parts

/-- JS `s.startsWith(pre)`, modelled characterwise. -/
def strStartsWith (s pre : String) : Bool := pre.data.isPrefixOf s.data

/-- `listColumns` from `src/piwebapi/columns.ts`: walk the element's
attributes in order, skip the `DSM__` reserved ones, and assign `order` by
the running counter. -/
def listColumnsGo : List PiWebApiAttribute → Nat → List Column
  | [], _ => []
  | attr :: rest, order =>
      if strStartsWith attr.Name DSM_PREFIX then listColumnsGo rest order
      else fetchColumnDetails attr order :: listColumnsGo rest (order + 1)

def listColumns (attrs : List PiWebApiAttribute) : List Column :=
  listColumnsGo attrs 0

/-- The outbound requests `createColumn` can issue. -/
inductive ColumnRequest where
  | pointLookup (path : String)
  | batchCreate
deriving DecidableEq, Repr

structure DataFrameAttrs where
  attrs : List PiWebApiAttribute
  nextId : Nat
deriving DecidableEq, Repr

/-- `createColumn` from `src/piwebapi/columns.ts`. `cat` is the point
catalog: the pre-flight `points?path=...` verification request, which either
succeeds or throws a normalized error. Any pre-flight failure raises
`PI Tag not found: <path>` before the batch is built. The batch itself is
executed happy-path: the attribute (with description, PI Point config string
and `DSM__CONFIG` metadata child) is appended and the terminal GET returns
it with Status 200, so `fetchColumnDetails` runs on it with order 0. The
third component records every outbound request, in order. -/
def createColumn (cat : String → Except ApiError Unit) (st : DataFrameAttrs)
    (input : CreateColumnInput) :
    Except String Column × DataFrameAttrs × List ColumnRequest :=
  let doBatch (reqs : List ColumnRequest) :
      Except String Column × DataFrameAttrs × List ColumnRequest :=
    let newAttr : PiWebApiAttribute :=
      { WebId := "ATTR-" ++ toString st.nextId,
        Name := input.name,
        Description := buildColumnDescription input,
        Type' := "String",
        ConfigString := match input.valueSource with
          | some s => s
          | none => "",
        configChild := some (match input.metadata with
          | some m => m
          | none => []) }
    (.ok (fetchColumnDetails newAttr 0),
     { attrs := st.attrs ++ [newAttr], nextId := st.nextId + 1 },
     reqs ++ [.batchCreate])
  match input.valueSourceType, input.valueSource with
  | .PiTag, some s =>
      if s = "" then doBatch []
      else
        match cat s with
        | .error _ => (.error ("PI Tag not found: " ++ s), st, [.pointLookup s])
        | .ok _ => doBatch [.pointLookup s]
  | _, _ => doBatch []

end DFSM

/-! ## Theorems -/

namespace DFSM

/-- Helper: a string has length zero exactly when it is empty. -/
theorem string_length_eq_zero_iff (s : String) : s.length = 0 ↔ s = "" := by
  constructor
  · intro h
    cases s with
    | mk data =>
      cases data with
      | nil => rfl
      | cons c cs => simp [String.length] at h
  · intro h; subst h; rfl

/-- C7. `mapHttpStatusToErrorKind` maps 401/403 to Auth, 404 to NotFound,
400/422 to Validation, 409 to Conflict, 429 to RateLimit, every status ≥ 500
to Server, and every other status to Unknown; `createApiError` sets
`retryable` true exactly for the kinds Network, RateLimit and Server. -/
theorem C7_error_normalization :
    mapHttpStatusToErrorKind 401 = .Auth ∧
    mapHttpStatusToErrorKind 403 = .Auth ∧
    mapHttpStatusToErrorKind 404 = .NotFound ∧
    mapHttpStatusToErrorKind 400 = .Validation ∧
    mapHttpStatusToErrorKind 422 = .Validation ∧
    mapHttpStatusToErrorKind 409 = .Conflict ∧
    mapHttpStatusToErrorKind 429 = .RateLimit ∧
    (∀ s : Nat, 500 ≤ s → mapHttpStatusToErrorKind s = .Server) ∧
    (∀ s : Nat, s < 500 →
      s ∉ ([400, 401, 403, 404, 409, 422, 429] : List Nat) →
      mapHttpStatusToErrorKind s = .Unknown) ∧
    (∀ (k : ApiErrorKind) (m : String) (st : Option Nat),
      (createApiError k m st).retryable = true ↔
        (k = .Network ∨ k = .RateLimit ∨ k = .Server)) := by
  refine ⟨rfl, rfl, rfl, rfl, rfl, rfl, rfl, ?_, ?_, ?_⟩
  · intro s hs
    unfold mapHttpStatusToErrorKind
    have h1 : (s = 401 || s = 403) = false := by
      simp only [Bool.or_eq_false_iff, decide_eq_false_iff_not]; omega
    have h2 : (s = 400 || s = 422) = false := by
      simp only [Bool.or_eq_false_iff, decide_eq_false_iff_not]; omega
    simp only [h1, h2, Bool.false_eq_true, if_false]
    have h404 : ¬ (s = 404) := by omega
    have h409 : ¬ (s = 409) := by omega
    have h429 : ¬ (s = 429) := by omega
    simp [h404, h409, h429, hs]
  · intro s hlt hnotin
    simp only [List.mem_cons, List.not_mem_nil, or_false] at hnotin
    push_neg at hnotin
    obtain ⟨h400, h401, h403, h404, h409, h422, h429⟩ := hnotin
    unfold mapHttpStatusToErrorKind
    have hge : ¬ (s ≥ 500) := by omega
    simp [h400, h401, h403, h404, h409, h422, h429, hge]
  · intro k m st
    cases k <;> simp [createApiError]

/-- C7 witness: concrete instances of the universally quantified parts. -/
theorem C7_error_normalization_witness :
    mapHttpStatusToErrorKind 502 = .Server ∧
    mapHttpStatusToErrorKind 418 = .Unknown ∧
    ((createApiError .RateLimit "slow down" (some 429)).retryable = true ↔
      (ApiErrorKind.RateLimit = .Network ∨ ApiErrorKind.RateLimit = .RateLimit ∨
        ApiErrorKind.RateLimit = .Server)) :=
  ⟨C7_error_normalization.2.2.2.2.2.2.2.1 502 (by decide),
   C7_error_normalization.2.2.2.2.2.2.2.2.1 418 (by decide) (by decide),
   C7_error_normalization.2.2.2.2.2.2.2.2.2 .RateLimit "slow down" (some 429)⟩

/-- Helper: trimming the empty string yields the empty string. -/
theorem trim_empty_string : strTrim "" = "" := by decide

/-- Helper: the JS guard `!value || value.trim().length === 0` on a present
string holds exactly when the trimmed string is empty. -/
theorem valueSourceGuard_eq (s : String) :
    (optFalsy (some s) || optTrimEmpty (some s)) = (strTrim s == "") := by
  simp only [optFalsy, optTrimEmpty]
  by_cases h : strTrim s = ""
  · have hlen : (strTrim s).length = 0 := by rw [h]; rfl
    simp [h, hlen]
  · have hlen : (strTrim s).length ≠ 0 := fun hc =>
      h ((string_length_eq_zero_iff (strTrim s)).mp hc)
    have hs : s ≠ "" := by
      intro he; subst he; exact h trim_empty_string
    have e1 : (s == "") = false := by simp [hs]
    have e2 : ((strTrim s).length == 0) = false := by simp [hlen]
    have e3 : (strTrim s == "") = false := by simp [h]
    rw [e1, e2, e3]; rfl

/-- Helper: a non-empty string of length at least `minChars > 0` fails the
short-circuit guard of `search`. -/
theorem searchGuard_false (cfg : TagSearchConfig) (q : String)
    (hmin : 0 < cfg.minChars) (hlen : cfg.minChars ≤ q.length) :
    ¬ (q = "" ∨ q.length < cfg.minChars) := by
  rintro (he | hlt)
  · subst he
    have h0 : ("" : String).length = 0 := rfl
    omega
  · omega

/-- Helper: `cancel` does not touch the clock, the cache or the backend-call
log. -/
theorem serviceCancel_preserves (s : TagSearchServiceState) :
    (serviceCancel s).cache = s.cache ∧
    (serviceCancel s).now = s.now ∧
    (serviceCancel s).backendCalls = s.backendCalls ∧
    (serviceCancel s).nextId = s.nextId ∧
    (serviceCancel s).pending = none := by
  unfold serviceCancel
  rcases hp : s.pending with _ | ⟨id, q⟩ <;>
    rcases hf : s.inFlight with _ | ⟨id2, q2⟩ <;>
      simp [hp, hf]

/-- Helper: `cancel` with no timer armed and no request in flight is the
identity. -/
theorem serviceCancel_idle (s : TagSearchServiceState)
    (hp : s.pending = none) (hf : s.inFlight = none) : serviceCancel s = s := by
  unfold serviceCancel
  simp [hp, hf]

/-- Helper: `cancel` with the debounce timer armed (and no request in flight)
resolves the waiting promise with the empty result and clears the timer. -/
theorem serviceCancel_pend (s : TagSearchServiceState) (id : Nat) (q : String)
    (hp : s.pending = some (id, q)) (hf : s.inFlight = none) :
    serviceCancel s =
      { s with pending := none,
               resolutions := s.resolutions ++ [(id, emptyTagSearchResult)] } := by
  unfold serviceCancel
  simp [hp, hf]

/-- Helper: completing an in-flight request appends its resolution and keeps
the backend-call log. -/
theorem completeBackend_inFlight (cfg : TagSearchConfig)
    (backend : String → TagSearchResult) (s : TagSearchServiceState)
    (id : Nat) (q : String) (hf : s.inFlight = some (id, q)) :
    (completeBackendRequest cfg backend s).backendCalls = s.backendCalls ∧
    (completeBackendRequest cfg backend s).resolutions =
      s.resolutions ++ [(id, backend q)] := by
  unfold completeBackendRequest setCachedResult
  rw [hf]
  cases cfg.enableCache <;> simp

/-- Helper: the cache lookup misses on an empty cache. -/
theorem getCached_of_empty (cfg : TagSearchConfig) (s : TagSearchServiceState)
    (q : String) (h : s.cache = []) : getCachedResult cfg s q = none := by
  unfold getCachedResult
  rw [h]
  cases cfg.enableCache <;> simp [List.lookup]

/-- C2. Issuing three searches on one service instance, each before the prior
call's debounce timer fires, makes exactly one backend call, for the last
query; each superseded call's promise resolves with the empty result
`{tags: [], hasMore: false}`, and the last promise resolves with the backend
result. -/
theorem C2_debounce_newest_wins (cfg : TagSearchConfig)
    (backend : String → TagSearchResult) (q1 q2 q3 : String) (t0 : Nat)
    (hmin : 0 < cfg.minChars)
    (h1 : cfg.minChars ≤ q1.length) (h2 : cfg.minChars ≤ q2.length)
    (h3 : cfg.minChars ≤ q3.length) :
    (searchCall cfg q1 (initialServiceState t0)).1 = .scheduled 0 ∧
    (searchCall cfg q2 (searchCall cfg q1 (initialServiceState t0)).2).1 =
      .scheduled 1 ∧
    (searchCall cfg q3 (searchCall cfg q2
        (searchCall cfg q1 (initialServiceState t0)).2).2).1 = .scheduled 2 ∧
    (completeBackendRequest cfg backend (fireDebounceTimer
        (searchCall cfg q3 (searchCall cfg q2
          (searchCall cfg q1 (initialServiceState t0)).2).2).2)).backendCalls =
      [q3] ∧
    (completeBackendRequest cfg backend (fireDebounceTimer
        (searchCall cfg q3 (searchCall cfg q2
          (searchCall cfg q1 (initialServiceState t0)).2).2).2)).resolutions =
      [(0, emptyTagSearchResult), (1, emptyTagSearchResult), (2, backend q3)] := by
  have hg1 := searchGuard_false cfg q1 hmin h1
  have hg2 := searchGuard_false cfg q2 hmin h2
  have hg3 := searchGuard_false cfg q3 hmin h3
  have e1 : searchCall cfg q1 (initialServiceState t0) =
      (.scheduled 0, ⟨some (0, q1), none, [], 1, t0, [], []⟩) := by
    simp only [searchCall]
    rw [serviceCancel_idle _ rfl rfl, if_neg hg1, getCached_of_empty _ _ _ rfl]
    rfl
  have e2 : searchCall cfg q2
      (⟨some (0, q1), none, [], 1, t0, [], []⟩ : TagSearchServiceState) =
      (.scheduled 1, ⟨some (1, q2), none, [], 2, t0, [],
        [(0, emptyTagSearchResult)]⟩) := by
    simp only [searchCall]
    rw [serviceCancel_pend _ 0 q1 rfl rfl, if_neg hg2,
      getCached_of_empty _ _ _ rfl]
    rfl
  have e3 : searchCall cfg q3
      (⟨some (1, q2), none, [], 2, t0, [],
        [(0, emptyTagSearchResult)]⟩ : TagSearchServiceState) =
      (.scheduled 2, ⟨some (2, q3), none, [], 3, t0, [],
        [(0, emptyTagSearchResult), (1, emptyTagSearchResult)]⟩) := by
    simp only [searchCall]
    rw [serviceCancel_pend _ 1 q2 rfl rfl, if_neg hg3,
      getCached_of_empty _ _ _ rfl]
    rfl
  have e4 : fireDebounceTimer
      (⟨some (2, q3), none, [], 3, t0, [],
        [(0, emptyTagSearchResult), (1, emptyTagSearchResult)]⟩ :
        TagSearchServiceState) =
      ⟨none, some (2, q3), [], 3, t0, [q3],
        [(0, emptyTagSearchResult), (1, emptyTagSearchResult)]⟩ := rfl
  have e5 := completeBackend_inFlight cfg backend
      (⟨none, some (2, q3), [], 3, t0, [q3],
        [(0, emptyTagSearchResult), (1, emptyTagSearchResult)]⟩ :
        TagSearchServiceState) 2 q3 rfl
  refine ⟨?_, ?_, ?_, ?_, ?_⟩ <;>
    simp [e1, e2, e3, e4, e5.1, e5.2]

/-- C2 witness: the three-search scenario at the default configuration with
queries "t1", "t2", "t3". -/
theorem C2_debounce_newest_wins_witness :
    (searchCall defaultTagSearchConfig "t1" (initialServiceState 0)).1 =
      .scheduled 0 ∧
    (searchCall defaultTagSearchConfig "t2"
      (searchCall defaultTagSearchConfig "t1" (initialServiceState 0)).2).1 =
      .scheduled 1 ∧
    (searchCall defaultTagSearchConfig "t3" (searchCall defaultTagSearchConfig "t2"
        (searchCall defaultTagSearchConfig "t1" (initialServiceState 0)).2).2).1 =
      .scheduled 2 ∧
    (completeBackendRequest defaultTagSearchConfig (fun _ => emptyTagSearchResult)
      (fireDebounceTimer
        (searchCall defaultTagSearchConfig "t3" (searchCall defaultTagSearchConfig "t2"
          (searchCall defaultTagSearchConfig "t1"
            (initialServiceState 0)).2).2).2)).backendCalls = ["t3"] ∧
    (completeBackendRequest defaultTagSearchConfig (fun _ => emptyTagSearchResult)
      (fireDebounceTimer
        (searchCall defaultTagSearchConfig "t3" (searchCall defaultTagSearchConfig "t2"
          (searchCall defaultTagSearchConfig "t1"
            (initialServiceState 0)).2).2).2)).resolutions =
      [(0, emptyTagSearchResult), (1, emptyTagSearchResult),
       (2, (fun _ => emptyTagSearchResult) "t3")] :=
  C2_debounce_newest_wins defaultTagSearchConfig (fun _ => emptyTagSearchResult)
    "t1" "t2" "t3" 0 (by decide) (by decide) (by decide) (by decide)

/-- Helper: lowercasing preserves the string length. -/
theorem strLower_length (s : String) : (strLower s).length = s.length := by
  cases s with
  | mk data =>
    show (data.map Char.toLower).length = data.length
    exact List.length_map data Char.toLower

/-- C4. A `search` whose query matches a fresh cache entry (case-insensitive,
within the 60s TTL) resolves immediately from the cache, arms no debounce
timer and adds no backend call; hence issuing the same query twice (up to
case) within the TTL makes exactly one backend call, the second resolving
with the cached backend result. -/
theorem C4_cache_single_backend_call (cfg : TagSearchConfig)
    (backend : String → TagSearchResult) (q q' : String) (t0 dt : Nat)
    (hec : cfg.enableCache = true)
    (hmin : 0 < cfg.minChars) (hq : cfg.minChars ≤ q.length)
    (hlow : strLower q' = strLower q) (hdt : dt < 60000) :
    (∀ (s : TagSearchServiceState) (e : CacheEntry),
      s.cache.lookup (strLower q') = some e →
      s.now - e.timestamp < CACHE_TTL →
      (searchCall cfg q' s).1 = .immediate e.result ∧
      (searchCall cfg q' s).2.backendCalls = s.backendCalls ∧
      (searchCall cfg q' s).2.pending = none) ∧
    ((searchCall cfg q' (tickClock dt (completeBackendRequest cfg backend
        (fireDebounceTimer (searchCall cfg q (initialServiceState t0)).2)))).1 =
      .immediate (backend q) ∧
     (searchCall cfg q' (tickClock dt (completeBackendRequest cfg backend
        (fireDebounceTimer
          (searchCall cfg q (initialServiceState t0)).2)))).2.backendCalls =
      [q]) := by
  have hq' : cfg.minChars ≤ q'.length := by
    have hl := congrArg String.length hlow
    rw [strLower_length, strLower_length] at hl
    omega
  have hg' := searchGuard_false cfg q' hmin hq'
  have hgen : ∀ (s : TagSearchServiceState) (e : CacheEntry),
      s.cache.lookup (strLower q') = some e →
      s.now - e.timestamp < CACHE_TTL →
      (searchCall cfg q' s).1 = .immediate e.result ∧
      (searchCall cfg q' s).2.backendCalls = s.backendCalls ∧
      (searchCall cfg q' s).2.pending = none := by
    intro s e hlook hfresh
    obtain ⟨hcch, hnow, hbc, hnid, hpend⟩ := serviceCancel_preserves s
    have hget : getCachedResult cfg (serviceCancel s) q' = some e.result := by
      unfold getCachedResult
      rw [hec, hcch, hnow, hlook]
      simp [hfresh]
    have hcall : searchCall cfg q' s = (.immediate e.result, serviceCancel s) := by
      simp only [searchCall]
      rw [if_neg hg', hget]
    rw [hcall]
    exact ⟨rfl, hbc, hpend⟩
  refine ⟨hgen, ?_⟩
  have hgq := searchGuard_false cfg q hmin hq
  have e1 : searchCall cfg q (initialServiceState t0) =
      (.scheduled 0, ⟨some (0, q), none, [], 1, t0, [], []⟩) := by
    simp only [searchCall]
    rw [serviceCancel_idle _ rfl rfl, if_neg hgq, getCached_of_empty _ _ _ rfl]
    rfl
  have e2 : fireDebounceTimer
      (⟨some (0, q), none, [], 1, t0, [], []⟩ : TagSearchServiceState) =
      ⟨none, some (0, q), [], 1, t0, [q], []⟩ := rfl
  have e3 : completeBackendRequest cfg backend
      (⟨none, some (0, q), [], 1, t0, [q], []⟩ : TagSearchServiceState) =
      ⟨none, none, [(strLower q, ⟨backend q, t0⟩)], 1, t0, [q],
        [(0, backend q)]⟩ := by
    simp only [completeBackendRequest, setCachedResult, hec]
    rfl
  have e4 : tickClock dt
      (⟨none, none, [(strLower q, ⟨backend q, t0⟩)], 1, t0, [q],
        [(0, backend q)]⟩ : TagSearchServiceState) =
      ⟨none, none, [(strLower q, ⟨backend q, t0⟩)], 1, t0 + dt, [q],
        [(0, backend q)]⟩ := rfl
  have hfinal := hgen
      (⟨none, none, [(strLower q, ⟨backend q, t0⟩)], 1, t0 + dt, [q],
        [(0, backend q)]⟩ : TagSearchServiceState)
      ⟨backend q, t0⟩
      (by simp [List.lookup, hlow])
      (by show t0 + dt - t0 < CACHE_TTL; simp only [CACHE_TTL]; omega)
  rw [e1, e2, e3, e4]
  exact ⟨hfinal.1, hfinal.2.1⟩

/-- C4 witness: "Temp" after "temp" at the default configuration is served
from the cache with a single backend call. -/
theorem C4_cache_single_backend_call_witness :
    ((searchCall defaultTagSearchConfig "Temp"
        (tickClock 1000 (completeBackendRequest defaultTagSearchConfig
          (fun _ => emptyTagSearchResult)
          (fireDebounceTimer (searchCall defaultTagSearchConfig "temp"
            (initialServiceState 0)).2)))).1 =
      .immediate ((fun _ => emptyTagSearchResult) "temp") ∧
     (searchCall defaultTagSearchConfig "Temp"
        (tickClock 1000 (completeBackendRequest defaultTagSearchConfig
          (fun _ => emptyTagSearchResult)
          (fireDebounceTimer (searchCall defaultTagSearchConfig "temp"
            (initialServiceState 0)).2)))).2.backendCalls = ["temp"]) :=
  (C4_cache_single_backend_call defaultTagSearchConfig
    (fun _ => emptyTagSearchResult) "temp" "Temp" 0 1000
    rfl (by decide) (by decide) (by decide) (by decide)).2

/-- C8. Selection wraps in both directions: `selectDown` at the last index
moves to 0 and `selectUp` at index 0 moves to the last index (for any
non-empty result list); `setSelectedIndex` is a no-op outside
`[0, results.length)`; with two results starting at index 0, `selectDown`
gives 1, `selectDown` again gives 0, and `selectUp` gives 1. -/
theorem C8_selection_navigation :
    (∀ st : TagSearchStoreState, st.results.length ≠ 0 →
      st.selectedIndex = (st.results.length : Int) - 1 →
      (selectDown st).selectedIndex = 0) ∧
    (∀ st : TagSearchStoreState, st.results.length ≠ 0 →
      st.selectedIndex = 0 →
      (selectUp st).selectedIndex = (st.results.length : Int) - 1) ∧
    (∀ (st : TagSearchStoreState) (i : Int),
      i < 0 ∨ (st.results.length : Int) ≤ i → setSelectedIndex i st = st) ∧
    (∀ t1 t2 : Tag,
      (selectDown ⟨[t1, t2], 0⟩).selectedIndex = 1 ∧
      (selectDown (selectDown ⟨[t1, t2], 0⟩)).selectedIndex = 0 ∧
      (selectUp ⟨[t1, t2], 0⟩).selectedIndex = 1) := by
  refine ⟨?_, ?_, ?_, ?_⟩
  · intro st h hidx
    have hpos : 1 ≤ st.results.length := Nat.pos_of_ne_zero h
    simp only [selectDown, moveSelection, if_neg h, hidx]
    split <;> omega
  · intro st h hidx
    have hpos : 1 ≤ st.results.length := Nat.pos_of_ne_zero h
    simp only [selectUp, moveSelection, if_neg h, hidx]
    split <;> omega
  · intro st i hout
    have hcond : ¬ (0 ≤ i ∧ i < (st.results.length : Int)) := by omega
    simp only [setSelectedIndex, if_neg hcond]
  · intro t1 t2
    refine ⟨?_, ?_, ?_⟩ <;> rfl

/-- C5. `cancel()` before the debounce timer fires resolves the pending
promise with the empty result `{tags: [], hasMore: false}` (it is never
rejected), clears the timer so it can never issue a backend call, and adds no
backend call; with nothing pending, `cancel()` is a no-op. -/
theorem C5_cancel_resolves_empty (s : TagSearchServiceState) (id : Nat) (q : String) :
    (s.pending = some (id, q) → s.inFlight = none →
      (serviceCancel s).resolutions = s.resolutions ++ [(id, emptyTagSearchResult)] ∧
      (serviceCancel s).pending = none ∧
      (serviceCancel s).backendCalls = s.backendCalls ∧
      fireDebounceTimer (serviceCancel s) = serviceCancel s) ∧
    (s.pending = none → s.inFlight = none → serviceCancel s = s) := by
  constructor
  · intro hp hf
    have hcancel := serviceCancel_pend s id q hp hf
    refine ⟨by rw [hcancel], by rw [hcancel], by rw [hcancel], ?_⟩
    rw [hcancel]
    unfold fireDebounceTimer
    rfl
  · exact serviceCancel_idle s

/-- C5 witness: cancelling a concrete pending search for "te" resolves it
empty with no backend call, and cancel with nothing pending is a no-op. -/
theorem C5_cancel_resolves_empty_witness :
    ({ initialServiceState 0 with
        pending := some (0, "te"), nextId := 1 } : TagSearchServiceState).pending
      = some (0, "te") ∧
    (serviceCancel { initialServiceState 0 with
        pending := some (0, "te"), nextId := 1 }).resolutions =
      [] ++ [(0, emptyTagSearchResult)] ∧
    serviceCancel (initialServiceState 0) = initialServiceState 0 :=
  ⟨rfl,
   ((C5_cancel_resolves_empty { initialServiceState 0 with
        pending := some (0, "te"), nextId := 1 } 0 "te").1 rfl rfl).1,
   (C5_cancel_resolves_empty (initialServiceState 0) 0 "te").2 rfl rfl⟩

/-- C8 witness: the wrap and no-op cases at a concrete state. -/
theorem C8_selection_navigation_witness :
    (selectDown ⟨[⟨"a", "A", "\\\\S\\A", none, "Float64", none⟩,
                  ⟨"b", "B", "\\\\S\\B", none, "Float64", none⟩], 1⟩).selectedIndex = 0 ∧
    setSelectedIndex 5 ⟨[⟨"a", "A", "\\\\S\\A", none, "Float64", none⟩], 0⟩ =
      ⟨[⟨"a", "A", "\\\\S\\A", none, "Float64", none⟩], 0⟩ :=
  ⟨C8_selection_navigation.1 ⟨[⟨"a", "A", "\\\\S\\A", none, "Float64", none⟩,
      ⟨"b", "B", "\\\\S\\B", none, "Float64", none⟩], 1⟩ (by decide) (by decide),
   C8_selection_navigation.2.2.1 ⟨[⟨"a", "A", "\\\\S\\A", none, "Float64", none⟩], 0⟩ 5
      (by right; decide)⟩

/-- C9. `validateValueSource` rejects, for `PiTag` and `Formula`, exactly the
absent, empty, or whitespace-only sources; for `FixedValue` exactly the
absent source (the empty string is accepted); everything else is valid. -/
theorem C9_validate_value_source (v : Option String) :
    ((validateValueSource .PiTag v).valid = false ↔
      (v = none ∨ ∃ s, v = some s ∧ strTrim s = "")) ∧
    ((validateValueSource .FixedValue v).valid = false ↔ v = none) ∧
    ((validateValueSource .Formula v).valid = false ↔
      (v = none ∨ ∃ s, v = some s ∧ strTrim s = "")) := by
  refine ⟨?_, ?_, ?_⟩
  · cases v with
    | none => simp [validateValueSource, optFalsy, optTrimEmpty]
    | some s =>
      by_cases h : strTrim s = "" <;>
        simp [validateValueSource, valueSourceGuard_eq, h]
  · cases v with
    | none => simp [validateValueSource, optFalsy, optTrimEmpty]
    | some s =>
      by_cases h : strTrim s = "" <;>
        simp [validateValueSource, valueSourceGuard_eq, h]
  · cases v with
    | none => simp [validateValueSource, optFalsy, optTrimEmpty]
    | some s =>
      by_cases h : strTrim s = "" <;>
        simp [validateValueSource, valueSourceGuard_eq, h]

/-- C3. A batched composite create returns the mapped entity exactly when the
terminal GET read-back step of the batch response map has Status 200; when
that step is absent or has any other status, the operation throws an error
whose message embeds the serialized full step-response map (shown for both
the DataFrame creator and the user-element creator). -/
theorem C3_batch_terminal_step (name finalId : String)
    (resp : List (String × BatchStepResponse)) :
    ((∃ r, dataFrameBatchReadBack name finalId resp = .ok r) ↔
      (∃ r, resp.lookup finalId = some r ∧ r.Status = 200)) ∧
    ((match resp.lookup finalId with
      | none => True
      | some r => r.Status ≠ 200) →
      dataFrameBatchReadBack name finalId resp =
        .error ("Failed to create DataFrame: " ++ name ++ ". Batch response: "
          ++ stringifyBatchResponse resp)) ∧
    ((∃ r, userElementBatchReadBack name resp = .ok r) ↔
      (∃ r, resp.lookup "4" = some r ∧ r.Status = 200)) ∧
    ((match resp.lookup "4" with
      | none => True
      | some r => r.Status ≠ 200) →
      userElementBatchReadBack name resp =
        .error ("Failed to create user element: " ++ name ++ ". Batch response: "
          ++ stringifyBatchResponse resp)) := by
  refine ⟨?_, ?_, ?_, ?_⟩
  · unfold dataFrameBatchReadBack
    cases h : resp.lookup finalId with
    | none => simp
    | some r =>
      by_cases hs : r.Status = 200 <;> simp [hs]
  · intro hfail
    unfold dataFrameBatchReadBack
    cases h : resp.lookup finalId with
    | none => rfl
    | some r =>
      rw [h] at hfail
      simp [hfail]
  · unfold userElementBatchReadBack
    cases h : resp.lookup "4" with
    | none => simp
    | some r =>
      by_cases hs : r.Status = 200 <;> simp [hs]
  · intro hfail
    unfold userElementBatchReadBack
    cases h : resp.lookup "4" with
    | none => rfl
    | some r =>
      rw [h] at hfail
      simp [hfail]

/-- C3 witness: a concrete response map whose terminal step "4" carries
Status 404 makes both composite creators throw the message embedding the
serialized map, and one whose step "4" has Status 200 succeeds. -/
theorem C3_batch_terminal_step_witness :
    dataFrameBatchReadBack "DF1" "4"
        [("1", ⟨201, "created"⟩), ("4", ⟨404, "missing"⟩)] =
      .error ("Failed to create DataFrame: DF1. Batch response: "
        ++ stringifyBatchResponse
            [("1", ⟨201, "created"⟩), ("4", ⟨404, "missing"⟩)]) ∧
    userElementBatchReadBack "JDOE" [("4", ⟨404, "missing"⟩)] =
      .error ("Failed to create user element: JDOE. Batch response: "
        ++ stringifyBatchResponse [("4", ⟨404, "missing"⟩)]) ∧
    (∃ r, dataFrameBatchReadBack "DF1" "4" [("4", ⟨200, "element"⟩)] = .ok r) :=
  ⟨(C3_batch_terminal_step "DF1" "4"
      [("1", ⟨201, "created"⟩), ("4", ⟨404, "missing"⟩)]).2.1
        (by show (404 : Nat) ≠ 200; decide),
   (C3_batch_terminal_step "JDOE" "4" [("4", ⟨404, "missing"⟩)]).2.2.2
        (by show (404 : Nat) ≠ 200; decide),
   (C3_batch_terminal_step "DF1" "4" [("4", ⟨200, "element"⟩)]).1.mpr
      ⟨⟨200, "element"⟩, by decide, rfl⟩⟩

/-- Helper: `findUserElement` returns `none` exactly when no child matches
the name case-insensitively. -/
theorem findUserElement_none_iff (st : AfRootState) (n : String) :
    findUserElement st n = none ↔
      st.children.filter (fun el => strUpper el.Name == strUpper n) = [] := by
  unfold findUserElement
  constructor
  · intro h
    cases hc : st.children.filter (fun el => strUpper el.Name == strUpper n) with
    | nil => rfl
    | cons a as =>
      have ha : a ∈ st.children.filter (fun el => strUpper el.Name == strUpper n) := by
        rw [hc]; exact List.mem_cons_self a as
      have hpa := (List.mem_filter.mp ha).2
      rw [hc] at h
      rw [List.find?] at h
      rw [hpa] at h
      cases h
  · intro h
    rw [h]
    rfl

/-- C6. `getOrCreateUserElement` is idempotent: called twice in sequence with
the same identity it returns the same element WebId, leaves the backend
state unchanged and runs no further creation batch; when the first call had
to create, the second call finds the created element by exact
case-insensitive name match among the root's children. -/
theorem C6_get_or_create_idempotent (cfg : NamingConfig) (st0 : AfRootState)
    (name : String) :
    (getOrCreateUserElement cfg (getOrCreateUserElement cfg st0 name).2 name).1 =
      (getOrCreateUserElement cfg st0 name).1 ∧
    (getOrCreateUserElement cfg (getOrCreateUserElement cfg st0 name).2 name).2 =
      (getOrCreateUserElement cfg st0 name).2 ∧
    (getOrCreateUserElement cfg (getOrCreateUserElement cfg st0 name).2 name).2.batchesRun =
      (getOrCreateUserElement cfg st0 name).2.batchesRun ∧
    (findUserElement st0 (normalizeUsername cfg name) = none →
      findUserElement (getOrCreateUserElement cfg st0 name).2
          (normalizeUsername cfg name) =
        some ⟨(getOrCreateUserElement cfg st0 name).1,
              normalizeUsername cfg name⟩) := by
  rcases Option.eq_none_or_eq_some
      (findUserElement st0 (normalizeUsername cfg name)) with h | ⟨el, h⟩
  case inr =>
    have e1 : getOrCreateUserElement cfg st0 name = (el.WebId, st0) := by
      simp only [getOrCreateUserElement]
      rw [h]
    refine ⟨by simp only [e1], by simp only [e1], by simp only [e1], ?_⟩
    intro h0
    rw [h0] at h
    cases h
  case inl =>
    have hfilter := (findUserElement_none_iff st0 (normalizeUsername cfg name)).mp h
    have e1 : getOrCreateUserElement cfg st0 name =
        ("WEBID-" ++ toString st0.nextId,
         ⟨st0.children ++ [⟨"WEBID-" ++ toString st0.nextId,
            normalizeUsername cfg name⟩],
          st0.nextId + 1, st0.batchesRun + 1⟩) := by
      simp only [getOrCreateUserElement]
      rw [h]
      rfl
    have hnew : findUserElement
        (⟨st0.children ++ [⟨"WEBID-" ++ toString st0.nextId,
            normalizeUsername cfg name⟩],
          st0.nextId + 1, st0.batchesRun + 1⟩ : AfRootState)
        (normalizeUsername cfg name) =
        some ⟨"WEBID-" ++ toString st0.nextId, normalizeUsername cfg name⟩ := by
      unfold findUserElement
      rw [List.filter_append, hfilter]
      simp [List.find?, List.filter]
    have e2 : getOrCreateUserElement cfg
        (⟨st0.children ++ [⟨"WEBID-" ++ toString st0.nextId,
            normalizeUsername cfg name⟩],
          st0.nextId + 1, st0.batchesRun + 1⟩ : AfRootState) name =
        ("WEBID-" ++ toString st0.nextId,
         ⟨st0.children ++ [⟨"WEBID-" ++ toString st0.nextId,
            normalizeUsername cfg name⟩],
          st0.nextId + 1, st0.batchesRun + 1⟩) := by
      simp only [getOrCreateUserElement]
      rw [hnew]
    refine ⟨?_, ?_, ?_, ?_⟩
    · rw [e1, e2]
    · rw [e1, e2]
    · rw [e1, e2]
    · intro _
      rw [e1]
      exact hnew

/-- C6 witness: the created-then-found scenario at a concrete identity. -/
theorem C6_get_or_create_idempotent_witness :
    findUserElement (⟨[], 0, 0⟩ : AfRootState)
        (normalizeUsername ⟨"_", true, true, 255⟩ "COMPANY\\jdoe") = none ∧
    findUserElement
        (getOrCreateUserElement ⟨"_", true, true, 255⟩ ⟨[], 0, 0⟩ "COMPANY\\jdoe").2
        (normalizeUsername ⟨"_", true, true, 255⟩ "COMPANY\\jdoe") =
      some ⟨(getOrCreateUserElement ⟨"_", true, true, 255⟩ ⟨[], 0, 0⟩ "COMPANY\\jdoe").1,
            normalizeUsername ⟨"_", true, true, 255⟩ "COMPANY\\jdoe"⟩ :=
  ⟨by decide,
   (C6_get_or_create_idempotent ⟨"_", true, true, 255⟩ ⟨[], 0, 0⟩
      "COMPANY\\jdoe").2.2.2 (by decide)⟩

/-- C1 counterexample: on a DataFrame created empty, the column returned by
the second `createColumn` call carries `order = 0`, not `order = 1` as the
claim states — `createColumn` always maps the read-back attribute with the
constant order 0. -/
theorem C1_column_order_counterexample :
    ((createColumn (fun _ => Except.ok ())
        (createColumn (fun _ => Except.ok ()) ⟨[], 0⟩
          ⟨"C1", .FixedValue, some "1", none⟩).2.1
        ⟨"C2", .FixedValue, some "2", none⟩).1.toOption.map Column.order)
      = some 0 ∧
    ¬ (((createColumn (fun _ => Except.ok ())
        (createColumn (fun _ => Except.ok ()) ⟨[], 0⟩
          ⟨"C1", .FixedValue, some "1", none⟩).2.1
        ⟨"C2", .FixedValue, some "2", none⟩).1.toOption.map Column.order)
      = some 1) := by
  constructor
  · rfl
  · intro h
    cases h

/-- C1 (amended). Creating columns C1, C2, C3 in sequence on a DataFrame
that starts with no columns returns, from each `createColumn` call, a column
with `order = 0` (the creation path maps the read-back with a constant 0),
and a subsequent `listColumns` returns the three columns in creation order
with `order` values 0, 1 and 2. -/
theorem C1_column_order_listing :
    ((createColumn (fun _ => Except.ok ()) ⟨[], 0⟩
        ⟨"C1", .FixedValue, some "1", none⟩).1.toOption.map Column.order)
      = some 0 ∧
    ((createColumn (fun _ => Except.ok ())
        (createColumn (fun _ => Except.ok ()) ⟨[], 0⟩
          ⟨"C1", .FixedValue, some "1", none⟩).2.1
        ⟨"C2", .FixedValue, some "2", none⟩).1.toOption.map Column.order)
      = some 0 ∧
    ((createColumn (fun _ => Except.ok ())
        (createColumn (fun _ => Except.ok ())
          (createColumn (fun _ => Except.ok ()) ⟨[], 0⟩
            ⟨"C1", .FixedValue, some "1", none⟩).2.1
          ⟨"C2", .FixedValue, some "2", none⟩).2.1
        ⟨"C3", .FixedValue, some "3", none⟩).1.toOption.map Column.order)
      = some 0 ∧
    (listColumns (createColumn (fun _ => Except.ok ())
        (createColumn (fun _ => Except.ok ())
          (createColumn (fun _ => Except.ok ()) ⟨[], 0⟩
            ⟨"C1", .FixedValue, some "1", none⟩).2.1
          ⟨"C2", .FixedValue, some "2", none⟩).2.1
        ⟨"C3", .FixedValue, some "3", none⟩).2.1.attrs).map
      (fun c => (c.name, c.order)) = [("C1", 0), ("C2", 1), ("C3", 2)] := by
  refine ⟨rfl, rfl, rfl, ?_⟩
  rfl

/-- C10. When the pre-flight point-catalog verification of a PiTag column
fails with any normalized error whatsoever — regardless of its kind or
retryable flag — `createColumn` rejects with `PI Tag not found: <source>`,
leaves the DataFrame untouched and never sends the batch write; the original
error is discarded entirely. -/
theorem C10_preflight_failure (cat : String → Except ApiError Unit)
    (st : DataFrameAttrs) (input : CreateColumnInput) (s : String) (e : ApiError)
    (ht : input.valueSourceType = .PiTag) (hs : input.valueSource = some s)
    (hne : s ≠ "") (herr : cat s = .error e) :
    createColumn cat st input =
      (.error ("PI Tag not found: " ++ s), st, [.pointLookup s]) := by
  obtain ⟨nm, vst, vs, md⟩ := input
  have ht' : vst = .PiTag := ht
  have hs' : vs = some s := hs
  subst ht'
  subst hs'
  simp only [createColumn]
  rw [if_neg hne, herr]

/-- C10 witness: a Network-kind pre-flight failure at a concrete input. -/
theorem C10_preflight_failure_witness :
    (⟨"temp", .PiTag, some "SINUSOID", none⟩ : CreateColumnInput).valueSourceType
      = .PiTag ∧
    createColumn
        (fun _ => (Except.error (createApiError .Network "net down" none) :
          Except ApiError Unit))
        ⟨[], 0⟩ ⟨"temp", .PiTag, some "SINUSOID", none⟩ =
      (.error ("PI Tag not found: " ++ "SINUSOID"), ⟨[], 0⟩,
       [.pointLookup "SINUSOID"]) :=
  ⟨rfl,
   C10_preflight_failure
     (fun _ => (Except.error (createApiError .Network "net down" none) :
        Except ApiError Unit))
     ⟨[], 0⟩ ⟨"temp", .PiTag, some "SINUSOID", none⟩ "SINUSOID"
     (createApiError .Network "net down" none) rfl rfl (by decide) rfl⟩

end DFSM
